import Mathlib

/-!
Verification development for the Discovery Manage-Globus-V3 repository.

The definitions below are shallow embeddings of the Python sources
src/bin/route_globus_v3.py and src/bin/get_endpoints.py.  Python dicts are
modelled as association lists over String keys, Python Counter objects as
association lists from String to Nat, and the Django/Elasticsearch stores as
lists of rows keyed by primary key.  Every string helper is implemented by
structural recursion over the character list so that concrete instances
reduce inside the kernel.
-/

namespace ManageGlobus

/-- Association-list lookup; model of a Python dict read (d.get / d[k]). -/
def assocLookup {α : Type} (l : List (String × α)) (k : String) : Option α :=
  match l with
  | [] => none
  | (k0, v) :: rest => if k0 = k then some v else assocLookup rest k

/-- Association-list insert-or-replace; model of a Python dict assignment d[k] = v. -/
def assocUpsert {α : Type} (l : List (String × α)) (k : String) (v : α) :
    List (String × α) :=
  match l with
  | [] => [(k, v)]
  | (k0, v0) :: rest => if k0 = k then (k, v) :: rest else (k0, v0) :: assocUpsert rest k v

/-- Python s.rstrip(c): drop every trailing occurrence of the character c. -/
def pyRstrip (s : String) (c : Char) : String :=
  ⟨(s.data.reverse.dropWhile (fun x => x = c)).reverse⟩

/-- Python sep.join(parts) for a one-character separator, by structural recursion. -/
def joinSep (sep : String) : List String → String
  | [] => ""
  | [x] => x
  | x :: y :: rest => x ++ sep ++ joinSep sep (y :: rest)

/--
Router.format_GLOBALURN (route_globus_v3.py lines 301-304): strip trailing
colons from the first argument, then join all arguments with a colon.  The
Python code indexes args[0], so the embedding separates the mandatory first
argument from the rest.
-/
def format_GLOBALURN (first : String) (rest : List String) : String :=
  joinSep ":" (pyRstrip first ':' :: rest)

/--
The global identifier Write_Globus_Collections computes for an incoming
record (route_globus_v3.py line 477): the step URN prefix, the fixed
namespace token globusuuid, and the record's native id.
-/
def WGC_globalURN (urnPre : String) (nativeId : String) : String :=
  format_GLOBALURN urnPre ["globusuuid", nativeId]

theorem pyRstrip_append_colon (p : String) : pyRstrip (p ++ ":") ':' = pyRstrip p ':' := by
  obtain ⟨l⟩ := p
  simp [pyRstrip, String.data]

/-- C3: For every incoming record, Write_Globus_Collections computes the record's
global identifier as the step URN prefix with trailing colons removed, followed by
a colon, the fixed namespace token globusuuid, a colon, and the record's native id;
the computation is a pure function of the pair of prefix and native id, hence
identical across runs and process restarts. -/
theorem WGC_identifier_deterministic (urnPre nativeId : String) :
    WGC_globalURN urnPre nativeId =
      pyRstrip urnPre ':' ++ ":" ++ "globusuuid" ++ ":" ++ nativeId := by
  simp only [WGC_globalURN, format_GLOBALURN, joinSep]
  rw [← String.append_assoc, ← String.append_assoc]

/-- C10: format_GLOBALURN joins its arguments with a colon after removing trailing
colon characters from the first argument only; consequently a prefix written with a
trailing colon produces exactly the same identifier as the prefix without it. -/
theorem format_GLOBALURN_trailing_colon (p : String) (rest : List String) :
    format_GLOBALURN (p ++ ":") rest = format_GLOBALURN p rest
    ∧ format_GLOBALURN p rest = joinSep ":" (pyRstrip p ':' :: rest) := by
  constructor
  · simp [format_GLOBALURN, pyRstrip_append_colon]
  · rfl

/-- One ResourceV3Relation row (resource_v3 model): a derived edge owned by
FirstResourceID. -/
structure RelationRec where
  ID : String
  FirstResourceID : String
  SecondResourceID : String
  RelationType : String
deriving DecidableEq, Repr

/-- One ResourceV3Local row; fields as assigned in Write_Globus_Collections
(route_globus_v3.py lines 481-492).  CreationTime and Validity are wall-clock
values and are not modelled. -/
structure LocalRec where
  ID : String
  Affiliation : String
  LocalID : String
  LocalType : String
  LocalURL : String
  CatalogMetaURL : String
deriving DecidableEq, Repr

/--
The stores the router mutates: the Elasticsearch ResourceV3Index documents (by
id), the ResourceV3Relation rows, the ResourceV3 rows (by primary key; their
payload is never read back by the router, so only the key is kept), the
ResourceV3Local rows keyed by primary key, the per-run STATS Counter, and the
GLOBUS_NAME_URNMAP dictionary.  Primary-key stores hold at most one row per
key, and deletion removes every row carrying the key.
-/
structure RouterState where
  es : List String
  rel : List RelationRec
  res : List String
  loc : List (String × LocalRec)
  stats : List (String × Nat)
  nameMap : List (String × String)
deriving DecidableEq, Repr

/-- The primary keys present in the ResourceV3Local store. -/
def locIDs (st : RouterState) : List String := st.loc.map Prod.fst

/-- collections.Counter update with a single tag: increment, inserting at 1. -/
def counterUpdate (stats : List (String × Nat)) (k : String) : List (String × Nat) :=
  match stats with
  | [] => [(k, 1)]
  | (k0, n) :: rest => if k0 = k then (k, n + 1) :: rest else (k0, n) :: counterUpdate rest k

/-- collections.Counter read: missing tags count as zero. -/
def counterGet (stats : List (String × Nat)) (k : String) : Nat :=
  (assocLookup stats k).getD 0

/--
The body of the Delete_OLD loop for one stale identifier
(route_globus_v3.py lines 411-425).  The Elasticsearch delete sits in its own
try block: a failure there is logged and the identifier is still processed.
The second try block deletes, in order, the relation rows with this
FirstResourceID (a queryset delete, which cannot raise on an empty match),
then the ResourceV3 row fetched by primary key, then the ResourceV3Local row
fetched by primary key; a get on an absent key raises DoesNotExist, aborting
the rest of this identifier's block after the earlier deletes have already
committed, and the Delete counter is bumped only when the whole block
succeeded.
-/
def deleteOne (esConf : Bool) (me : String) (st : RouterState) (urn : String) : RouterState :=
  let es1 := if esConf then st.es.filter (fun e => e ≠ urn) else st.es
  let rel1 := st.rel.filter (fun r => r.FirstResourceID ≠ urn)
  if urn ∈ st.res then
    if urn ∈ locIDs st then
      { st with
        es := es1
        rel := rel1
        res := st.res.filter (fun e => e ≠ urn)
        loc := st.loc.filter (fun p => p.1 ≠ urn)
        stats := counterUpdate st.stats (me ++ ".Delete") }
    else
      { st with
        es := es1
        rel := rel1
        res := st.res.filter (fun e => e ≠ urn) }
  else
    { st with es := es1, rel := rel1 }

/-- The Delete_OLD loop over a list of stale identifiers. -/
def deleteList (esConf : Bool) (me : String) : RouterState → List String → RouterState
  | st, [] => st
  | st, u :: rest => deleteList esConf me (deleteOne esConf me st u) rest

/--
Router.Delete_OLD (route_globus_v3.py lines 410-425): iterate over the
identifiers present in cur and absent from new, deleting each one's search
index entry, relation rows and resource rows; a failure for one identifier is
logged and does not stop the loop.
-/
def Delete_OLD (esConf : Bool) (me : String) (st : RouterState) (cur new : List String) :
    RouterState :=
  deleteList esConf me st (cur.filter (fun id => !(new.contains id)))

lemma mem_locIDs {st : RouterState} {e : String} :
    e ∈ locIDs st ↔ ∃ rec, (e, rec) ∈ st.loc := by
  simp only [locIDs, List.mem_map]
  constructor
  · rintro ⟨⟨k, rec⟩, hp, he⟩
    subst he
    exact ⟨rec, hp⟩
  · rintro ⟨rec, hp⟩
    exact ⟨(e, rec), hp, rfl⟩

lemma es_deleteOne_sub {esConf : Bool} {me : String} {st : RouterState} {u e : String}
    (h : e ∈ (deleteOne esConf me st u).es) : e ∈ st.es := by
  unfold deleteOne at h
  split_ifs at h <;> simp_all [List.mem_filter]

lemma rel_deleteOne_sub {esConf : Bool} {me : String} {st : RouterState} {u : String}
    {r : RelationRec} (h : r ∈ (deleteOne esConf me st u).rel) : r ∈ st.rel := by
  unfold deleteOne at h
  split_ifs at h <;> simp_all [List.mem_filter]

lemma res_deleteOne_sub {esConf : Bool} {me : String} {st : RouterState} {u e : String}
    (h : e ∈ (deleteOne esConf me st u).res) : e ∈ st.res := by
  unfold deleteOne at h
  split_ifs at h <;> simp_all [List.mem_filter]

lemma locIDs_deleteOne_sub {esConf : Bool} {me : String} {st : RouterState} {u e : String}
    (h : e ∈ locIDs (deleteOne esConf me st u)) : e ∈ locIDs st := by
  rw [mem_locIDs] at h ⊢
  obtain ⟨rec, hp⟩ := h
  unfold deleteOne at hp
  split_ifs at hp <;>
    first
      | exact ⟨rec, hp⟩
      | exact ⟨rec, (List.mem_filter.mp hp).1⟩

lemma es_deleteOne_ne {esConf : Bool} {me : String} {st : RouterState} {u e : String}
    (h : e ≠ u) : e ∈ (deleteOne esConf me st u).es ↔ e ∈ st.es := by
  unfold deleteOne
  split_ifs <;> simp_all [List.mem_filter]

lemma res_deleteOne_ne {esConf : Bool} {me : String} {st : RouterState} {u e : String}
    (h : e ≠ u) : e ∈ (deleteOne esConf me st u).res ↔ e ∈ st.res := by
  unfold deleteOne
  split_ifs <;> simp_all [List.mem_filter]

lemma locIDs_deleteOne_ne {esConf : Bool} {me : String} {st : RouterState} {u e : String}
    (h : e ≠ u) : e ∈ locIDs (deleteOne esConf me st u) ↔ e ∈ locIDs st := by
  rw [mem_locIDs, mem_locIDs]
  unfold deleteOne
  split_ifs <;> simp_all [List.mem_filter]

lemma rel_deleteOne_ne {esConf : Bool} {me : String} {st : RouterState} {u : String}
    {r : RelationRec} (h : r.FirstResourceID ≠ u) :
    r ∈ (deleteOne esConf me st u).rel ↔ r ∈ st.rel := by
  unfold deleteOne
  split_ifs <;> simp_all [List.mem_filter]

lemma es_deleteOne_self {me : String} {st : RouterState} {u : String} :
    u ∉ (deleteOne true me st u).es := by
  unfold deleteOne
  split_ifs <;> simp_all [List.mem_filter]

lemma rel_deleteOne_self {esConf : Bool} {me : String} {st : RouterState} {u : String}
    {r : RelationRec} (h : r ∈ (deleteOne esConf me st u).rel) : r.FirstResourceID ≠ u := by
  intro he
  unfold deleteOne at h
  split_ifs at h <;> simp_all [List.mem_filter]

lemma res_deleteOne_self {esConf : Bool} {me : String} {st : RouterState} {u : String}
    (h1 : u ∈ st.res) (h2 : u ∈ locIDs st) : u ∉ (deleteOne esConf me st u).res := by
  unfold deleteOne
  split_ifs <;> simp_all [List.mem_filter]

lemma locIDs_deleteOne_self {esConf : Bool} {me : String} {st : RouterState} {u : String}
    (h1 : u ∈ st.res) (h2 : u ∈ locIDs st) : u ∉ locIDs (deleteOne esConf me st u) := by
  rw [mem_locIDs]
  unfold deleteOne
  split_ifs <;> simp_all [List.mem_filter, mem_locIDs]

lemma es_deleteList_sub {esConf : Bool} {me : String} {l : List String} {st : RouterState}
    {e : String} (h : e ∈ (deleteList esConf me st l).es) : e ∈ st.es := by
  induction l generalizing st with
  | nil => exact h
  | cons a rest ih => exact es_deleteOne_sub (ih h)

lemma rel_deleteList_sub {esConf : Bool} {me : String} {l : List String} {st : RouterState}
    {r : RelationRec} (h : r ∈ (deleteList esConf me st l).rel) : r ∈ st.rel := by
  induction l generalizing st with
  | nil => exact h
  | cons a rest ih => exact rel_deleteOne_sub (ih h)

lemma res_deleteList_sub {esConf : Bool} {me : String} {l : List String} {st : RouterState}
    {e : String} (h : e ∈ (deleteList esConf me st l).res) : e ∈ st.res := by
  induction l generalizing st with
  | nil => exact h
  | cons a rest ih => exact res_deleteOne_sub (ih h)

lemma locIDs_deleteList_sub {esConf : Bool} {me : String} {l : List String} {st : RouterState}
    {e : String} (h : e ∈ locIDs (deleteList esConf me st l)) : e ∈ locIDs st := by
  induction l generalizing st with
  | nil => exact h
  | cons a rest ih => exact locIDs_deleteOne_sub (ih h)

lemma es_deleteList_deletes {me : String} {l : List String} {st : RouterState} {u : String}
    (hu : u ∈ l) : u ∉ (deleteList true me st l).es := by
  induction l generalizing st with
  | nil => cases hu
  | cons a rest ih =>
    by_cases hau : a = u
    · subst hau
      intro hmem
      exact es_deleteOne_self (es_deleteList_sub hmem)
    · rcases List.mem_cons.mp hu with h | h
      · exact absurd h.symm hau
      · exact ih h

lemma rel_deleteList_deletes {esConf : Bool} {me : String} {l : List String}
    {st : RouterState} {u : String} (hu : u ∈ l) {r : RelationRec}
    (hr : r ∈ (deleteList esConf me st l).rel) : r.FirstResourceID ≠ u := by
  induction l generalizing st with
  | nil => cases hu
  | cons a rest ih =>
    by_cases hau : a = u
    · subst hau
      intro hfirst
      have hmem : r ∈ (deleteOne esConf me st a).rel := rel_deleteList_sub hr
      exact rel_deleteOne_self hmem hfirst
    · rcases List.mem_cons.mp hu with h | h
      · exact absurd h.symm hau
      · exact ih h hr

lemma resloc_deleteList_deletes {esConf : Bool} {me : String} {l : List String}
    {st : RouterState} {u : String} (hu : u ∈ l) (h1 : u ∈ st.res) (h2 : u ∈ locIDs st) :
    u ∉ (deleteList esConf me st l).res ∧ u ∉ locIDs (deleteList esConf me st l) := by
  induction l generalizing st with
  | nil => cases hu
  | cons a rest ih =>
    by_cases hau : a = u
    · subst hau
      constructor
      · intro hmem
        exact res_deleteOne_self h1 h2 (res_deleteList_sub hmem)
      · intro hmem
        exact locIDs_deleteOne_self h1 h2 (locIDs_deleteList_sub hmem)
    · rcases List.mem_cons.mp hu with h | h
      · exact absurd h.symm hau
      · exact ih h ((res_deleteOne_ne (fun e => hau e.symm)).mpr h1)
          ((locIDs_deleteOne_ne (fun e => hau e.symm)).mpr h2)

lemma es_deleteList_preserve {esConf : Bool} {me : String} {l : List String}
    {st : RouterState} {u : String} (hu : u ∉ l) :
    u ∈ (deleteList esConf me st l).es ↔ u ∈ st.es := by
  induction l generalizing st with
  | nil => exact Iff.rfl
  | cons a rest ih =>
    have hau : u ≠ a := fun e => hu (e ▸ List.mem_cons_self a rest)
    have hrest : u ∉ rest := fun h => hu (List.mem_cons_of_mem a h)
    exact (ih hrest).trans (es_deleteOne_ne hau)

lemma res_deleteList_preserve {esConf : Bool} {me : String} {l : List String}
    {st : RouterState} {u : String} (hu : u ∉ l) :
    u ∈ (deleteList esConf me st l).res ↔ u ∈ st.res := by
  induction l generalizing st with
  | nil => exact Iff.rfl
  | cons a rest ih =>
    have hau : u ≠ a := fun e => hu (e ▸ List.mem_cons_self a rest)
    have hrest : u ∉ rest := fun h => hu (List.mem_cons_of_mem a h)
    exact (ih hrest).trans (res_deleteOne_ne hau)

lemma locIDs_deleteList_preserve {esConf : Bool} {me : String} {l : List String}
    {st : RouterState} {u : String} (hu : u ∉ l) :
    u ∈ locIDs (deleteList esConf me st l) ↔ u ∈ locIDs st := by
  induction l generalizing st with
  | nil => exact Iff.rfl
  | cons a rest ih =>
    have hau : u ≠ a := fun e => hu (e ▸ List.mem_cons_self a rest)
    have hrest : u ∉ rest := fun h => hu (List.mem_cons_of_mem a h)
    exact (ih hrest).trans (locIDs_deleteOne_ne hau)

lemma rel_deleteList_preserve {esConf : Bool} {me : String} {l : List String}
    {st : RouterState} {u : String} (hu : u ∉ l) {r : RelationRec}
    (hfirst : r.FirstResourceID = u) :
    r ∈ (deleteList esConf me st l).rel ↔ r ∈ st.rel := by
  induction l generalizing st with
  | nil => exact Iff.rfl
  | cons a rest ih =>
    have hau : r.FirstResourceID ≠ a := by
      rw [hfirst]
      exact fun e => hu (e ▸ List.mem_cons_self a rest)
    have hrest : u ∉ rest := fun h => hu (List.mem_cons_of_mem a h)
    exact (ih hrest).trans (rel_deleteOne_ne hau)

lemma mem_stale {cur new : List String} {u : String} (hc : u ∈ cur) (hn : u ∉ new) :
    u ∈ cur.filter (fun id => !(new.contains id)) := by
  simp [List.mem_filter, hc, hn]

lemma not_mem_stale {cur new : List String} {u : String} (hn : u ∈ new) :
    u ∉ cur.filter (fun id => !(new.contains id)) := by
  simp [List.mem_filter, hn]

/-- C1: After Delete_OLD runs with current identifiers cur and new identifiers
new, every identifier in cur and not in new has its search index entry deleted
(when a search index is configured), has no remaining relation row naming it as
FirstResourceID, and, whenever its ResourceV3 and ResourceV3Local rows were
present, both rows are deleted; these guarantees hold per identifier, so a
failing delete for one identifier (modelled by its rows being absent) does not
prevent the deletion of the remaining stale identifiers.  No identifier present
in new has any of its entries or rows touched. -/
theorem Delete_OLD_stale_sweep (esConf : Bool) (me : String) (st : RouterState)
    (cur new : List String) :
    (∀ u, u ∈ cur → u ∉ new →
        (esConf = true → u ∉ (Delete_OLD esConf me st cur new).es)
      ∧ (∀ r, r ∈ (Delete_OLD esConf me st cur new).rel → r.FirstResourceID ≠ u)
      ∧ (u ∈ st.res → u ∈ locIDs st →
          u ∉ (Delete_OLD esConf me st cur new).res
          ∧ u ∉ locIDs (Delete_OLD esConf me st cur new)))
    ∧ (∀ u, u ∈ new →
        (u ∈ (Delete_OLD esConf me st cur new).es ↔ u ∈ st.es)
      ∧ (u ∈ (Delete_OLD esConf me st cur new).res ↔ u ∈ st.res)
      ∧ (u ∈ locIDs (Delete_OLD esConf me st cur new) ↔ u ∈ locIDs st)
      ∧ (∀ r : RelationRec, r.FirstResourceID = u →
          (r ∈ (Delete_OLD esConf me st cur new).rel ↔ r ∈ st.rel))) := by
  constructor
  · intro u hc hn
    have hst : u ∈ cur.filter (fun id => !(new.contains id)) := mem_stale hc hn
    refine ⟨?_, ?_, ?_⟩
    · intro hb
      subst hb
      exact es_deleteList_deletes hst
    · intro r hr
      exact rel_deleteList_deletes hst hr
    · intro h1 h2
      exact resloc_deleteList_deletes hst h1 h2
  · intro u hn
    have hst : u ∉ cur.filter (fun id => !(new.contains id)) := not_mem_stale hn
    exact ⟨es_deleteList_preserve hst, res_deleteList_preserve hst,
      locIDs_deleteList_preserve hst, fun r hr => rel_deleteList_preserve hst hr⟩

def relW : RelationRec :=
  { ID := "urn:t:globusuuid:A:h1"
    FirstResourceID := "urn:t:globusuuid:A"
    SecondResourceID := "urn:x:other"
    RelationType := "uses" }

def recW (letter : String) : LocalRec :=
  { ID := "urn:t:globusuuid:" ++ letter
    Affiliation := "xsede.org"
    LocalID := letter
    LocalType := "globus.collection"
    LocalURL := "https://app.globus.org/file-manager?origin_id=" ++ letter
    CatalogMetaURL := "" }

def stW : RouterState :=
  { es := ["urn:t:globusuuid:A", "urn:t:globusuuid:B"]
    rel := [relW]
    res := ["urn:t:globusuuid:A", "urn:t:globusuuid:B"]
    loc := [("urn:t:globusuuid:A", recW "A"), ("urn:t:globusuuid:B", recW "B")]
    stats := []
    nameMap := [] }

theorem Delete_OLD_stale_sweep_witness :
    "urn:t:globusuuid:A" ∉
        (Delete_OLD true "me" stW ["urn:t:globusuuid:A", "urn:t:globusuuid:B"]
          ["urn:t:globusuuid:B"]).res
    ∧ "urn:t:globusuuid:A" ∉
        locIDs (Delete_OLD true "me" stW ["urn:t:globusuuid:A", "urn:t:globusuuid:B"]
          ["urn:t:globusuuid:B"])
    ∧ "urn:t:globusuuid:A" ∉
        (Delete_OLD true "me" stW ["urn:t:globusuuid:A", "urn:t:globusuuid:B"]
          ["urn:t:globusuuid:B"]).es
    ∧ ("urn:t:globusuuid:B" ∈
        locIDs (Delete_OLD true "me" stW ["urn:t:globusuuid:A", "urn:t:globusuuid:B"]
          ["urn:t:globusuuid:B"]) ↔ "urn:t:globusuuid:B" ∈ locIDs stW) := by
  have h := Delete_OLD_stale_sweep true "me" stW
    ["urn:t:globusuuid:A", "urn:t:globusuuid:B"] ["urn:t:globusuuid:B"]
  have hA := h.1 "urn:t:globusuuid:A" (by decide) (by decide)
  have hB := h.2 "urn:t:globusuuid:B" (by decide)
  exact ⟨(hA.2.2 (by decide) (by decide)).1, (hA.2.2 (by decide) (by decide)).2,
    hA.1 rfl, hB.2.2.1⟩

/-- One Globus collection document as consumed by Write_Globus_Collections;
optional fields model dict.get returning None when absent. -/
structure GItem where
  id : String
  display_name : Option String
  name : Option String
  description : Option String
  organization : Option String
  contact_email : Option String
  info_link : Option String
  keywords : Option String
deriving DecidableEq, Repr

/-- The step configuration fields Write_Globus_Collections reads. -/
structure WGCConfig where
  URNPREFIX : String
  LOCALTYPE : String
  CATALOGURN : String
deriving DecidableEq, Repr

/-- Router.CATALOGURN_to_URL (route_globus_v3.py lines 298-299); apiPre is
WAREHOUSE_API_PREFIX and the API version is the constant v3. -/
def CATALOGURN_to_URL (apiPre : String) (id : String) : String :=
  apiPre ++ "/resource-api/" ++ "v3" ++ "/catalog/id/" ++ id ++ "/"

/-- The step tag Write_Globus_Collections uses for counters and logs:
function name, warehouse catalog, resource group and type. -/
def WGC_me : String := "Write_Globus_Collections to ResourceV3(Software:Online Service)"

/-- The ResourceV3Local row built for one incoming record
(route_globus_v3.py lines 481-492). -/
def WGC_localRec (apiPre : String) (cfg : WGCConfig) (item : GItem) (urn : String) :
    LocalRec :=
  { ID := urn
    Affiliation := "xsede.org"
    LocalID := item.id
    LocalType := cfg.LOCALTYPE
    LocalURL := "https://app.globus.org/file-manager?origin_id=" ++ item.id
    CatalogMetaURL := CATALOGURN_to_URL apiPre cfg.CATALOGURN }

/-- A Django save on a primary-key table: update the row in place when the key
exists, append it otherwise. -/
def pkUpsert (l : List (String × LocalRec)) (k : String) (rec : LocalRec) :
    List (String × LocalRec) :=
  if k ∈ l.map Prod.fst then l.map (fun p => if p.1 = k then (k, rec) else p)
  else l ++ [(k, rec)]

/-- Structural prefix test on character lists. -/
def listStarts : List Char → List Char → Bool
  | [], _ => true
  | _ :: _, [] => false
  | a :: as, b :: bs => a = b && listStarts as bs

/-- Structural prefix test on strings; model of the Django ID__startswith filter. -/
def strStarts (pre s : String) : Bool :=
  listStarts pre.data s.data

/--
Processing of one incoming record inside the Write_Globus_Collections loop
(route_globus_v3.py lines 476-553).  The record's URN is computed; a non-empty
display_name is recorded in GLOBUS_NAME_URNMAP; the ResourceV3Local row is
saved (the model treats the save itself as succeeding).  The subsequent block
(lines 500-546) builds the ResourceV3 description locally and then, at line
524, invokes the attribute formaDt on a string literal - a typo for format -
which raises AttributeError for every record; the except clause at line 547
catches it and makes the function return a failure message, so the ResourceV3
save, the Elasticsearch indexing and the Update counter bump on line 553 are
never reached.  The returned Option String is the error message.
-/
def WGC_processItem (apiPre : String) (cfg : WGCConfig) (st : RouterState) (item : GItem) :
    Option String × RouterState :=
  let urn := WGC_globalURN cfg.URNPREFIX item.id
  let st1 :=
    match item.display_name with
    | some d => if d = "" then st else { st with nameMap := assocUpsert st.nameMap d urn }
    | none => st
  let st2 := { st1 with loc := pkUpsert st1.loc urn (WGC_localRec apiPre cfg item urn) }
  (some ("AttributeError saving resource ID=" ++ urn), st2)

/-- Outcome values of a router step: Python returns the integer 0 with an empty
message on success and False with a message on failure. -/
inductive RC where
  | ok
  | fail
deriving DecidableEq, Repr

/-- The for-loop of Write_Globus_Collections over the envelope's records: the
record's URN joins the new set before the resource block runs, and an error
from a record's processing returns immediately, skipping the remaining
records. -/
def WGC_loop (apiPre : String) (cfg : WGCConfig) :
    RouterState → List GItem → List String → Option String × RouterState × List String
  | st, [], newIds => (none, st, newIds)
  | st, item :: rest, newIds =>
    let urn := WGC_globalURN cfg.URNPREFIX item.id
    match WGC_processItem apiPre cfg st item with
    | (some msg, st1) => (some msg, st1, newIds ++ [urn])
    | (none, st1) => WGC_loop apiPre cfg st1 rest (newIds ++ [urn])

/--
Router.Write_Globus_Collections (route_globus_v3.py lines 464-559): load the
current identifiers for the affiliation under the step's URN prefix, process
every incoming record, and (only when no record failed) run the stale sweep
Delete_OLD and report success.  Timing and the per-step log line are not
modelled.
-/
def Write_Globus_Collections (esConf : Bool) (apiPre : String) (cfg : WGCConfig)
    (st : RouterState) (items : List GItem) : (RC × String) × RouterState :=
  let cur := (st.loc.filter
    (fun p => p.2.Affiliation == "xsede.org" && strStarts cfg.URNPREFIX p.1)).map Prod.fst
  match WGC_loop apiPre cfg st items [] with
  | (some msg, st1, _) => ((RC.fail, msg), st1)
  | (none, st1, newIds) => ((RC.ok, ""), Delete_OLD esConf WGC_me st1 cur newIds)

def itemCE (letter : String) : GItem :=
  { id := letter
    display_name := some ("Endpoint " ++ letter)
    name := some letter
    description := some ("desc " ++ letter)
    organization := none
    contact_email := none
    info_link := none
    keywords := none }

def cfgCE : WGCConfig :=
  { URNPREFIX := "urn:t", LOCALTYPE := "globus.collection", CATALOGURN := "urn:cat:g" }

def stCE : RouterState :=
  { es := []
    rel := []
    res := []
    loc := [("urn:t:globusuuid:A", recW "A"), ("urn:t:globusuuid:B", recW "B")]
    stats := []
    nameMap := [] }

/-- C2 (code bug): with current store ids A and B and an envelope carrying B
and C, Write_Globus_Collections does not leave the store at B and C with
Update 2 and Delete 1: the formaDt typo at line 524 raises AttributeError on
the first record, the function returns failure after saving only B's local
row, the store still holds exactly A and B, the stale sweep never runs, and
both counters stay at zero. -/
theorem WGC_formaDt_scenario :
    (Write_Globus_Collections true "https://info.xsede.org/wh1" cfgCE stCE
        [itemCE "B", itemCE "C"]).1.1 = RC.fail
    ∧ ((Write_Globus_Collections true "https://info.xsede.org/wh1" cfgCE stCE
        [itemCE "B", itemCE "C"]).2.loc.map Prod.fst)
        = ["urn:t:globusuuid:A", "urn:t:globusuuid:B"]
    ∧ counterGet (Write_Globus_Collections true "https://info.xsede.org/wh1" cfgCE stCE
        [itemCE "B", itemCE "C"]).2.stats (WGC_me ++ ".Update") = 0
    ∧ counterGet (Write_Globus_Collections true "https://info.xsede.org/wh1" cfgCE stCE
        [itemCE "B", itemCE "C"]).2.stats (WGC_me ++ ".Delete") = 0 := by
  decide

/-- The resolved fields of one pipeline step that Run reads: the parsed source
and destination schemes and paths, the step's SOURCEURL and its local type
tag. -/
structure RunStep where
  SRCscheme : String
  SRCpath : String
  SOURCEURL : String
  DSTscheme : String
  DSTpath : String
  LOCALTYPE : String
deriving DecidableEq, Repr

/-- An exception that escapes the step loop of Run and aborts the iteration;
the String names the undefined identifier of a NameError. -/
inductive RunAbort where
  | nameError : String → RunAbort
deriving DecidableEq, Repr

/-- Fetched content values; the parsed JSON payloads are opaque to the
dispatch logic, so they are modelled abstractly. -/
abbrev Content := String

/-- A content envelope: a dict from content type tag to raw records. -/
abbrev Envelope := List (String × Content)

/--
The per-step dispatch of Router.Run (route_globus_v3.py lines 583-597), given
the fetched envelope.  When the envelope lacks the step's LOCALTYPE key, line
584 builds the failure message with the undefined name contype and line 585
logs the undefined name msg: both raise NameError, which no handler inside
Run catches.  Otherwise the destination scheme selects a sink
(Write_CACHE, Analyze_CONTENT, Write_MEMORY or the configured function); the
sinks' own store effects are covered by their dedicated models, so here their
outcome is supplied by the sink argument.
-/
def Run_dispatch (sink : RunStep → Envelope → RC × String) (env : Envelope)
    (step : RunStep) : Except RunAbort (RC × String) :=
  match assocLookup env step.LOCALTYPE with
  | none => .error (.nameError "contype")
  | some _ => .ok (sink step env)

/--
The step loop of one Run iteration over the steps and their fetched
envelopes: an uncaught exception from any step propagates and the remaining
steps never execute; otherwise every step contributes its outcome.
-/
def Run_steps (sink : RunStep → Envelope → RC × String) :
    List (RunStep × Envelope) → Except RunAbort (List (RC × String))
  | [] => .ok []
  | (step, env) :: rest =>
    match Run_dispatch sink env step with
    | .error e => .error e
    | .ok out =>
      match Run_steps sink rest with
      | .error e => .error e
      | .ok outs => .ok (out :: outs)

def runStepCE (tag : String) : RunStep :=
  { SRCscheme := "file"
    SRCpath := "/tmp/in.json"
    SOURCEURL := "file:///tmp/in.json"
    DSTscheme := "memory"
    DSTpath := "k"
    LOCALTYPE := tag }

/-- C5 (code bug): when the first step's fetched envelope lacks its expected
type tag, Run does not record a per-step failure and continue; the branch
raises NameError (the message at line 584 references the undefined name
contype), the exception propagates, and the second step never executes - the
whole iteration aborts instead of proceeding to the next configured step. -/
theorem Run_missing_tag_aborts :
    Run_steps (fun _ _ => (RC.ok, ""))
      [(runStepCE "globus.collection", [("other", "x")]),
       (runStepCE "rdr.resource", [("rdr.resource", "y")])]
      = .error (.nameError "contype") := rfl

/-- The state Get_HTTP reads and writes: the HTTP_CACHE dict, the
URL_USE_COUNT dict computed during Setup, and an instrumentation counter of
network requests issued. -/
structure FetchState where
  cache : List (String × Content)
  useCount : List (String × Nat)
  netCalls : Nat
deriving DecidableEq, Repr

/--
Router.Get_HTTP (route_globus_v3.py lines 306-337).  The cache key is the
content type tag, a colon, and the full URL.  A cache hit returns the cached
content under the tag with no network request.  On a miss a GET is issued
(netCalls is incremented); a JSON parse failure returns None; on success the
content is stored in the cache only when URL_USE_COUNT records the URL as
referenced by more than one configured step.  The network is modelled by the
net argument, mapping a URL to its parsed body or None on a parse failure.
-/
def Get_HTTP (net : String → Option Content) (st : FetchState) (url contype : String) :
    Option Envelope × FetchState :=
  let key := contype ++ ":" ++ url
  match assocLookup st.cache key with
  | some c => (some [(contype, c)], st)
  | none =>
    let st1 := { st with netCalls := st.netCalls + 1 }
    match net url with
    | none => (none, st1)
    | some content =>
      let st2 :=
        match assocLookup st1.useCount url with
        | some n => if 1 < n then { st1 with cache := assocUpsert st1.cache key content }
                    else st1
        | none => st1
      (some [(contype, content)], st2)

/--
Router.Get_Collections (route_globus_v3.py lines 339-370): one
client.endpoint_search request against the Transfer API, plus one
client.get_endpoint request per id listed in the extra-endpoints file, and
the listing is returned under the requested tag.  The url parameter of the
Python method is never used, and neither HTTP_CACHE nor URL_USE_COUNT is
consulted.  This models the branch in which the extra-endpoints file is
readable (when the open raises, the Python would hit its own NameError on the
unassigned variable content).
-/
def Get_Collections (st : FetchState) (contype : String) (globusData : Content)
    (extraIds : List String) : Envelope × FetchState :=
  let st1 := { st with netCalls := st.netCalls + 1 }
  let st2 := { st1 with netCalls := st1.netCalls + extraIds.length }
  ([(contype, globusData)], st2)

/--
The fetch phase of one step in Router.Run (route_globus_v3.py lines 578-581):
a file source is read through Read_CACHE (no network request); every other
source goes to Get_Collections.  Get_HTTP is never invoked here.
-/
def Run_fetch (files : String → Option Content) (globusData : Content)
    (extraIds : List String) (st : FetchState) (step : RunStep) :
    Option Envelope × FetchState :=
  if step.SRCscheme = "file" then
    match files step.SRCpath with
    | some c => (some [(step.LOCALTYPE, c)], st)
    | none => (none, st)
  else
    let r := Get_Collections st step.LOCALTYPE globusData extraIds
    (some r.1, r.2)

/-- The fetches performed across the steps of one Run iteration. -/
def Run_fetchAll (files : String → Option Content) (globusData : Content)
    (extraIds : List String) : FetchState → List RunStep → FetchState
  | st, [] => st
  | st, step :: rest =>
    Run_fetchAll files globusData extraIds (Run_fetch files globusData extraIds st step).2 rest

def sharedStep (n : String) : RunStep :=
  { SRCscheme := "https"
    SRCpath := "/api/x"
    SOURCEURL := "https://api.example/x"
    DSTscheme := "memory"
    DSTpath := n
    LOCALTYPE := "globus.collection" }

/-- C4 (counterexample): two configured steps share the SOURCEURL
https://api.example/x, recorded with use count 2, yet one Run iteration
issues two network fetches, not one, and the HTTP cache stays empty - because
Run routes non-file sources to Get_Collections, which never consults the
Get_HTTP cache. -/
theorem Run_shared_url_fetched_twice :
    (Run_fetchAll (fun _ => none) "data" []
        { cache := [], useCount := [("https://api.example/x", 2)], netCalls := 0 }
        [sharedStep "a", sharedStep "b"]).netCalls = 2
    ∧ ¬ ((Run_fetchAll (fun _ => none) "data" []
        { cache := [], useCount := [("https://api.example/x", 2)], netCalls := 0 }
        [sharedStep "a", sharedStep "b"]).netCalls = 1)
    ∧ (Run_fetchAll (fun _ => none) "data" []
        { cache := [], useCount := [("https://api.example/x", 2)], netCalls := 0 }
        [sharedStep "a", sharedStep "b"]).cache = [] := by
  decide

/-- C4 (amended, the part Get_HTTP itself satisfies): a cache hit returns the
cached content under the tag with no network request and no state change; a
URL whose use count is absent or not above one is never cached; and for a URL
with use count above one, two successive Get_HTTP calls with the same tag and
URL issue exactly one network request between them and return identical
content. -/
theorem Get_HTTP_cache_policy (net : String → Option Content) (st : FetchState)
    (url ct c : String) :
    (assocLookup st.cache (ct ++ ":" ++ url) = some c →
        Get_HTTP net st url ct = (some [(ct, c)], st))
    ∧ (assocLookup st.useCount url = none →
        (Get_HTTP net st url ct).2.cache = st.cache)
    ∧ (∀ n, assocLookup st.useCount url = some n → n ≤ 1 →
        (Get_HTTP net st url ct).2.cache = st.cache)
    ∧ (assocLookup st.cache (ct ++ ":" ++ url) = none →
        ∀ n, assocLookup st.useCount url = some n → 1 < n → net url = some c →
        (Get_HTTP net st url ct).1 = some [(ct, c)]
        ∧ (Get_HTTP net st url ct).2.netCalls = st.netCalls + 1
        ∧ Get_HTTP net (Get_HTTP net st url ct).2 url ct
            = (some [(ct, c)], (Get_HTTP net st url ct).2)) := by
  refine ⟨?_, ?_, ?_, ?_⟩
  · intro hhit
    simp [Get_HTTP, hhit]
  · intro hnone
    unfold Get_HTTP
    cases hc : assocLookup st.cache (ct ++ ":" ++ url) with
    | some c2 => simp [hc]
    | none =>
      cases hn : net url with
      | none => simp [hc, hn]
      | some c2 => simp [hc, hn, hnone]
  · intro n hsome hle
    have hnlt : ¬ 1 < n := Nat.not_lt.mpr hle
    unfold Get_HTTP
    cases hc : assocLookup st.cache (ct ++ ":" ++ url) with
    | some c2 => simp [hc]
    | none =>
      cases hn : net url with
      | none => simp [hc, hn]
      | some c2 => simp [hc, hn, hsome, hnlt]
  · intro hmiss n hsome hlt hnet
    have hfirst : Get_HTTP net st url ct =
        (some [(ct, c)],
         { st with netCalls := st.netCalls + 1
                   cache := assocUpsert st.cache (ct ++ ":" ++ url) c }) := by
      simp [Get_HTTP, hmiss, hnet, hsome, hlt]
    refine ⟨by simp [hfirst], by simp [hfirst], ?_⟩
    rw [hfirst]
    have hkey : assocLookup (assocUpsert st.cache (ct ++ ":" ++ url) c)
        (ct ++ ":" ++ url) = some c := by
      clear hmiss
      induction st.cache with
      | nil => simp [assocUpsert, assocLookup]
      | cons p rest ih =>
        by_cases hp : p.1 = ct ++ ":" ++ url <;>
          simp [assocUpsert, assocLookup, hp, ih]
    simp [Get_HTTP, hkey]

def netW : String → Option Content :=
  fun u => if u = "https://api.example/x" then some "payload" else none

def fsW : FetchState :=
  { cache := [], useCount := [("https://api.example/x", 2)], netCalls := 0 }

theorem Get_HTTP_cache_policy_witness :
    (Get_HTTP netW fsW "https://api.example/x" "t").1 = some [("t", "payload")]
    ∧ (Get_HTTP netW fsW "https://api.example/x" "t").2.netCalls = 1
    ∧ Get_HTTP netW (Get_HTTP netW fsW "https://api.example/x" "t").2
        "https://api.example/x" "t"
        = (some [("t", "payload")], (Get_HTTP netW fsW "https://api.example/x" "t").2) := by
  have h := (Get_HTTP_cache_policy netW fsW "https://api.example/x" "t" "payload").2.2.2
    (by decide) 2 (by decide) (by decide) (by decide)
  exact ⟨h.1, h.2.1, h.2.2⟩

/-- A raw configuration dictionary (a step entry of the STEPS list, or a
catalog record): field values are modelled by their string form, and the
parsed ParseResult objects stored under SRCURL and DSTURL by their source
URL text. -/
abbrev Cfg := List (String × String)

/-- The fatal configuration errors of Router.Setup; each corresponds to a
logger.error followed by exit(1) (or to an uncaught KeyError reaching the
top-level handler). -/
inductive SetupErr where
  | missingCATALOGURN
  | unknownCATALOGURN
  | missingCatalogAPIURL
  | badSourceScheme
  | missingDESTINATION
  | badDestScheme
  | bothFile
deriving DecidableEq, Repr

/-- The scheme of a parsed URL: the text before the first colon, empty when no
colon occurs (urlparse on the URL shapes appearing in this configuration). -/
def pyScheme (s : String) : String :=
  let pre := s.data.takeWhile (fun c => c != ':')
  if pre.length = s.data.length then "" else ⟨pre⟩

/-- The Python dict merge of a catalog record and a step dict with the step
winning on key collisions: the catalog entries whose key the step also
carries are dropped, the step entries follow. -/
def cfgMerge (cat step : Cfg) : Cfg :=
  match cat with
  | [] => step
  | p :: rest => if (assocLookup step p.1).isNone then p :: cfgMerge rest step
                 else cfgMerge rest step

/--
The per-step body of Router.Setup (route_globus_v3.py lines 231-272).  The
step must name a known catalog; line 239 then assigns the catalog's
CatalogAPIURL to the step's SOURCEURL - unconditionally overwriting any
SOURCEURL the step configuration carried - before the source scheme is
validated, the destination is parsed and validated, both-file combinations
are rejected, the parsed URLs are stored back on the step dict, and finally
the catalog record and the step dict are merged with the step dict winning on
key collisions.
-/
def Setup_resolveStep (catalogs : List (String × Cfg)) (step0 : Cfg) : Except SetupErr Cfg :=
  match assocLookup step0 "CATALOGURN" with
  | none => .error .missingCATALOGURN
  | some cid =>
    match assocLookup catalogs cid with
    | none => .error .unknownCATALOGURN
    | some cat =>
      match assocLookup cat "CatalogAPIURL" with
      | none => .error .missingCatalogAPIURL
      | some apiurl =>
        let step1 := assocUpsert step0 "SOURCEURL" apiurl
        if pyScheme apiurl ∈ (["file", "http", "https"] : List String) then
          match assocLookup step1 "DESTINATION" with
          | none => .error .missingDESTINATION
          | some dest =>
            if pyScheme dest ∈ (["file", "analyze", "function", "memory"] : List String) then
              if pyScheme apiurl = "file" ∧ pyScheme dest = "file" then .error .bothFile
              else
                let step2 := assocUpsert (assocUpsert step1 "SRCURL" apiurl) "DSTURL" dest
                .ok (cfgMerge cat step2)
            else .error .badDestScheme
        else .error .badSourceScheme

lemma assocLookup_upsert_self {α : Type} (l : List (String × α)) (k : String) (v : α) :
    assocLookup (assocUpsert l k v) k = some v := by
  induction l with
  | nil => simp [assocUpsert, assocLookup]
  | cons p rest ih =>
    by_cases hp : p.1 = k <;> simp [assocUpsert, assocLookup, hp, ih]

lemma assocLookup_upsert_ne {α : Type} (l : List (String × α)) (k k2 : String) (v : α)
    (h : k2 ≠ k) : assocLookup (assocUpsert l k v) k2 = assocLookup l k2 := by
  have h2 : ¬ k = k2 := fun e => h e.symm
  induction l with
  | nil => simp [assocUpsert, assocLookup, h2]
  | cons p rest ih =>
    by_cases hp : p.1 = k
    · simp [assocUpsert, assocLookup, hp, h2]
    · by_cases hq : p.1 = k2 <;> simp [assocUpsert, assocLookup, hp, hq, ih, h]

lemma assocLookup_cfgMerge (cat step : Cfg) (k : String) :
    assocLookup (cfgMerge cat step) k =
      match assocLookup step k with
      | some v => some v
      | none => assocLookup cat k := by
  induction cat with
  | nil =>
    simp only [cfgMerge]
    cases assocLookup step k <;> simp [assocLookup]
  | cons p rest ih =>
    simp only [cfgMerge]
    cases hs : assocLookup step p.1 with
    | some v0 =>
      simp only [hs, Option.isNone_some, Bool.false_eq_true, if_false]
      by_cases hk : p.1 = k
      · subst hk
        simp [ih, hs, assocLookup]
      · rw [ih]
        cases assocLookup step k <;> simp [assocLookup, hk]
    | none =>
      simp only [hs, Option.isNone_none, if_true]
      by_cases hk : p.1 = k
      · subst hk
        simp [assocLookup, hs]
      · rw [assocLookup]
        simp only [hk, if_false]
        rw [ih]
        cases assocLookup step k <;> simp [assocLookup, hk]

def catCE : Cfg :=
  [("ID", "urn:cat:g"), ("CatalogAPIURL", "https://catalog.example/api"),
   ("LOCALTYPE", "globus.collection")]

def stepCE : Cfg :=
  [("CATALOGURN", "urn:cat:g"), ("SOURCEURL", "https://step.example/api"),
   ("DESTINATION", "function:Write_Globus_Collections")]

/-- The SOURCEURL of a resolution result, None when resolution failed. -/
def resolvedSOURCEURL (r : Except SetupErr Cfg) : Option String :=
  match r with
  | .ok m => assocLookup m "SOURCEURL"
  | .error _ => none

/-- C6 (counterexample): a step configured with SOURCEURL
https://step.example/api against a catalog whose CatalogAPIURL is
https://catalog.example/api resolves with the catalog's URL, not the step's:
the step-specific SOURCEURL does not take precedence. -/
theorem Setup_SOURCEURL_not_step_precedence :
    resolvedSOURCEURL (Setup_resolveStep [("urn:cat:g", catCE)] stepCE)
        = some "https://catalog.example/api"
    ∧ ¬ (resolvedSOURCEURL (Setup_resolveStep [("urn:cat:g", catCE)] stepCE)
        = some "https://step.example/api") := by
  refine ⟨?_, ?_⟩ <;> decide

/-- C6 (amended): when resolution succeeds, the resolved step equals the
catalog record overlaid with the step fields where the step value wins on
every key present in both - except SOURCEURL (and the computed SRCURL and
DSTURL): the resolved SOURCEURL is always the catalog's CatalogAPIURL,
because line 239 overwrites the step's SOURCEURL before the merge. -/
theorem Setup_merge_semantics (catalogs : List (String × Cfg)) (step0 : Cfg)
    (cid : String) (cat : Cfg) (apiurl dest : String)
    (h1 : assocLookup step0 "CATALOGURN" = some cid)
    (h2 : assocLookup catalogs cid = some cat)
    (h3 : assocLookup cat "CatalogAPIURL" = some apiurl)
    (h4 : pyScheme apiurl ∈ (["file", "http", "https"] : List String))
    (h5 : assocLookup step0 "DESTINATION" = some dest)
    (h6 : pyScheme dest ∈ (["file", "analyze", "function", "memory"] : List String))
    (h7 : ¬ (pyScheme apiurl = "file" ∧ pyScheme dest = "file")) :
    ∃ m, Setup_resolveStep catalogs step0 = .ok m
      ∧ assocLookup m "SOURCEURL" = some apiurl
      ∧ ∀ k, ¬ k = "SOURCEURL" → ¬ k = "SRCURL" → ¬ k = "DSTURL" →
          assocLookup m k =
            match assocLookup step0 k with
            | some v => some v
            | none => assocLookup cat k := by
  have h5' : assocLookup (assocUpsert step0 "SOURCEURL" apiurl) "DESTINATION" = some dest := by
    rw [assocLookup_upsert_ne _ _ _ _ (by decide)]
    exact h5
  have hok : Setup_resolveStep catalogs step0 =
      .ok (cfgMerge cat
        (assocUpsert (assocUpsert (assocUpsert step0 "SOURCEURL" apiurl) "SRCURL" apiurl)
          "DSTURL" dest)) := by
    simp [Setup_resolveStep, h1, h2, h3, h5', h4, h6, h7]
  refine ⟨_, hok, ?_, ?_⟩
  · rw [assocLookup_cfgMerge]
    rw [assocLookup_upsert_ne _ _ _ _ (by decide), assocLookup_upsert_ne _ _ _ _ (by decide),
      assocLookup_upsert_self]
  · intro k hk1 hk2 hk3
    rw [assocLookup_cfgMerge]
    rw [assocLookup_upsert_ne _ _ _ _ hk3, assocLookup_upsert_ne _ _ _ _ hk2,
      assocLookup_upsert_ne _ _ _ _ hk1]

theorem Setup_merge_semantics_witness :
    ∃ m, Setup_resolveStep [("urn:cat:g", catCE)] stepCE = .ok m
      ∧ assocLookup m "SOURCEURL" = some "https://catalog.example/api"
      ∧ ∀ k, ¬ k = "SOURCEURL" → ¬ k = "SRCURL" → ¬ k = "DSTURL" →
          assocLookup m k =
            match assocLookup stepCE k with
            | some v => some v
            | none => assocLookup catCE k := by
  exact Setup_merge_semantics [("urn:cat:g", catCE)] stepCE "urn:cat:g" catCE
    "https://catalog.example/api" "function:Write_Globus_Collections"
    (by decide) (by decide) (by decide) (by decide) (by decide) (by decide) (by decide)

/-- One raw record of a content envelope as Write_MEMORY sees it: a JSON
object, modelled as an association list with string field values. -/
abbrev MItem := List (String × String)

/-- The for-loop of Router.Write_MEMORY over the envelope's records: a record
carrying the key field is stored under its key value, a record without it
raises KeyError, which the bare except swallows (pass) - the record is
skipped and nothing else happens. -/
def Write_MEMORY_table (conkey : String) :
    List (String × MItem) → List MItem → List (String × MItem)
  | tbl, [] => tbl
  | tbl, it :: rest =>
    match assocLookup it conkey with
    | some v => Write_MEMORY_table conkey (assocUpsert tbl v it) rest
    | none => Write_MEMORY_table conkey tbl rest

/--
Router.Write_MEMORY (route_globus_v3.py lines 376-385): ensure the in-process
memory dict has a table for the content type tag, index every record that has
the key field under its key value, silently skip the rest, and return
success.  The method never references self.STATS, so the counter state is
returned unchanged.
-/
def Write_MEMORY (memory : List (String × List (String × MItem)))
    (stats : List (String × Nat)) (content : List MItem) (contype conkey : String) :
    (RC × String) × List (String × List (String × MItem)) × List (String × Nat) :=
  let tbl :=
    match assocLookup memory contype with
    | some t => t
    | none => []
  ((RC.ok, ""), assocUpsert memory contype (Write_MEMORY_table conkey tbl content), stats)

lemma assocLookup_upsert_isSome {α : Type} {l : List (String × α)} {k2 : String}
    (k : String) (v : α) (h : (assocLookup l k2).isSome) :
    (assocLookup (assocUpsert l k v) k2).isSome := by
  by_cases hk : k2 = k
  · subst hk
    simp [assocLookup_upsert_self]
  · rw [assocLookup_upsert_ne _ _ _ _ hk]
    exact h

lemma Write_MEMORY_table_mono {conkey v : String} {content : List MItem}
    {tbl : List (String × MItem)} (h : (assocLookup tbl v).isSome) :
    (assocLookup (Write_MEMORY_table conkey tbl content) v).isSome := by
  induction content generalizing tbl with
  | nil => exact h
  | cons it rest ih =>
    unfold Write_MEMORY_table
    cases hk : assocLookup it conkey with
    | some w => exact ih (assocLookup_upsert_isSome _ _ h)
    | none => exact ih h

lemma Write_MEMORY_table_stores {conkey v : String} {content : List MItem}
    {it : MItem} (hmem : it ∈ content) (hkey : assocLookup it conkey = some v) :
    ∀ tbl, (assocLookup (Write_MEMORY_table conkey tbl content) v).isSome := by
  induction content with
  | nil => cases hmem
  | cons a rest ih =>
    intro tbl
    rcases List.mem_cons.mp hmem with he | hrest
    · subst he
      unfold Write_MEMORY_table
      rw [hkey]
      exact Write_MEMORY_table_mono (by simp [assocLookup_upsert_self])
    · unfold Write_MEMORY_table
      cases hk : assocLookup a conkey with
      | some w => exact ih hrest _
      | none => exact ih hrest _

/-- C7 (amended): Write_MEMORY returns success, stores every record that has
the key field into the table of its type tag under the record's key value,
skips records missing the key field without raising - and touches no counter
at all: the skip is not counted anywhere. -/
theorem Write_MEMORY_spec (memory : List (String × List (String × MItem)))
    (stats : List (String × Nat)) (content : List MItem) (contype conkey : String) :
    (Write_MEMORY memory stats content contype conkey).1 = (RC.ok, "")
    ∧ (Write_MEMORY memory stats content contype conkey).2.2 = stats
    ∧ (∀ it v, it ∈ content → assocLookup it conkey = some v →
        ∃ tbl, assocLookup (Write_MEMORY memory stats content contype conkey).2.1 contype
            = some tbl
          ∧ (assocLookup tbl v).isSome) := by
  refine ⟨rfl, rfl, ?_⟩
  intro it v hmem hkey
  exact ⟨_, assocLookup_upsert_self _ _ _, Write_MEMORY_table_stores hmem hkey _⟩

def mitemK : MItem := [("id", "x"), ("display_name", "N")]

def mitemNoK : MItem := [("display_name", "M")]

theorem Write_MEMORY_spec_witness :
    (Write_MEMORY [] [] [mitemK, mitemNoK] "ct" "id").1 = (RC.ok, "")
    ∧ (Write_MEMORY [] [] [mitemK, mitemNoK] "ct" "id").2.2 = []
    ∧ (∃ tbl, assocLookup (Write_MEMORY [] [] [mitemK, mitemNoK] "ct" "id").2.1 "ct"
          = some tbl
        ∧ (assocLookup tbl "x").isSome) := by
  have h := Write_MEMORY_spec [] [] [mitemK, mitemNoK] "ct" "id"
  exact ⟨h.1, h.2.1, h.2.2 mitemK "x" (by decide) (by decide)⟩

/-- C7 (counterexample): a record missing the key field is skipped, but no
skip counter is incremented - the counter state is untouched (here it stays
empty, so every counter reads zero), while the claim says each skip is
counted as skipped. -/
theorem Write_MEMORY_skip_not_counted :
    (Write_MEMORY [] [] [mitemK, mitemNoK] "ct" "id").2.2 = []
    ∧ counterGet (Write_MEMORY [] [] [mitemK, mitemNoK] "ct" "id").2.2 "Skip" = 0
    ∧ (Write_MEMORY [] [] [mitemK, mitemNoK] "ct" "id").2.1
        = [("ct", [("x", mitemK)])]
    ∧ (Write_MEMORY [] [] [mitemK, mitemNoK] "ct" "id").1 = (RC.ok, "") := by
  decide

/-- Python single-character split without maxsplit, by structural recursion:
splitOnChar c l cuts l at every occurrence of c. -/
def splitOnChar (c : Char) : List Char → List (List Char)
  | [] => [[]]
  | x :: xs =>
    match splitOnChar c xs with
    | [] => [[x]]
    | y :: ys => if x = c then [] :: y :: ys else (x :: y) :: ys

/-- Python s.split(sep) for a one-character separator. -/
def pySplitAll (s : String) (c : Char) : List String :=
  (splitOnChar c s.data).map (fun l => (⟨l⟩ : String))

/-- Python s.split with the separator a dot and maxsplit 2: at most two cuts,
the remainder of the string staying in the third part. -/
def pySplit2 (s : String) : List String :=
  let parts := pySplitAll s '.'
  if parts.length ≤ 3 then parts else parts.take 2 ++ [joinSep "." (parts.drop 2)]

/-- The RDR_Fields sub-object of a published endpoint record. -/
structure RDRFields where
  RDR_Description : String
  Organization_Name : String
  Organization_Abbreviation : String
deriving DecidableEq, Repr

/-- One published endpoint record from the goservices registry
(get_endpoints.py), with the fields main reads; RDR_Fields is None (or an
empty, falsy dict) when absent, modelled by Option. -/
structure PubEndpoint where
  URL : String
  ResourceID : String
  Description : String
  DisplayName : String
  ID : String
  RDR_Fields : Option RDRFields
deriving DecidableEq, Repr

/--
generate_endpoint_name (get_endpoints.py lines 164-172): unpack
ResourceID.split with a dot separator and maxsplit 2 into exactly three
names - when the split yields fewer than three parts the unpacking raises
ValueError, modelled as none - then: hpss joins the first two parts with a
dash; wrangler joins them with a dash only when the second part is iu;
every other first part is returned alone.
-/
def generate_endpoint_name (ep : PubEndpoint) : Option String :=
  match pySplit2 ep.ResourceID with
  | [first, second, _rest] =>
    some (if first = "hpss" then first ++ "-" ++ second
          else if first = "wrangler" ∧ second = "iu" then first ++ "-" ++ second
          else first)
  | _ => none

/-- Drop pat from the front of l when pat starts l. -/
def dropPre : List Char → List Char → Option (List Char)
  | [], l => some l
  | _ :: _, [] => none
  | p :: ps, x :: xs => if p = x then dropPre ps xs else none

/-- Fuelled core of Python str.replace: replace each leftmost, non-overlapping
occurrence of pat by repl.  The fuel is the input length; every step consumes
at least one character, so the fuel never runs out when pat is non-empty. -/
def replaceFuel (pat repl : List Char) : Nat → List Char → List Char
  | 0, l => l
  | _ + 1, [] => []
  | n + 1, x :: xs =>
    match dropPre pat (x :: xs) with
    | some rest => repl ++ replaceFuel pat repl n rest
    | none => x :: replaceFuel pat repl n xs

/-- Python s.replace(pat, repl) for non-empty pat. -/
def pyReplace (s pat repl : String) : String :=
  ⟨replaceFuel pat.data repl.data s.data.length s.data⟩

/--
The hostname and port extraction of main (get_endpoints.py lines 109-110):
strip a gsiftp scheme head, split on colons - the two-name unpacking raises
ValueError unless exactly one colon remains, modelled as none - and drop any
slash from the port text.
-/
def parseHostPort (url : String) : Option (String × String) :=
  match pySplitAll (pyReplace url "gsiftp://" "") ':' with
  | [h, p] => some (h, pyReplace p "/" "")
  | _ => none

/-- One server dict of the endpoint payload's DATA list (create_endpoint_data
lines 243-247); the DATA_TYPE field is the constant server. -/
structure ServerRec where
  hostname : String
  scheme : String
  port : String
  subject : Option String
deriving DecidableEq, Repr

/-- A Python value stored in an endpoint document field. -/
inductive PyVal where
  | str : String → PyVal
  | bool : Bool → PyVal
  | none : PyVal
  | servers : List ServerRec → PyVal
deriving DecidableEq, Repr

/-- Python truthiness fallback a or b on strings: the empty string is falsy. -/
def pyOr (a b : String) : String := if a = "" then b else a

/--
create_endpoint_data (get_endpoints.py lines 216-249) at its call site in
main: the defaults used there are scheme gsiftp, subject None, public True,
is_globus_connect False, default_directory None, oauth_server
oa4mp.xsede.org; the contact_email entry is the hard-coded help address; and
because is_globus_connect is False the DATA server list is appended.  The
entries are listed in the dict's insertion order.
-/
def create_endpoint_data (endpoint_name description hostname port organization
    keywords display_name subscription_id : String) : List (String × PyVal) :=
  [("DATA_TYPE", .str "endpoint"),
   ("description", .str description),
   ("canonical_name", .str ("xsede#" ++ endpoint_name)),
   ("display_name", .str (pyOr display_name endpoint_name)),
   ("organization", .str organization),
   ("keywords", .str keywords),
   ("contact_email", .str "help@xsede.org"),
   ("public", .bool true),
   ("is_globus_connect", .bool false),
   ("default_directory", PyVal.none),
   ("oauth_server", .str "oa4mp.xsede.org"),
   ("subscription_id", .str subscription_id),
   ("DATA", .servers [{ hostname := hostname, scheme := "gsiftp", port := port,
                        subject := Option.none }])]

/-- Python str() of a stored field value, as fed to the quote-unwrapping
regular expression.  Only the str, bool and none forms ever reach the
comparison - the DATA field is skipped before the regex runs - so the list
rendering is a placeholder. -/
def pyStrOf : PyVal → String
  | .str s => s
  | .bool b => if b then "True" else "False"
  | .none => "None"
  | .servers _ => "[servers]"

/-- The quote characters of the regex character class: codes 39 and 34. -/
def quoteChars : List Char := [Char.ofNat 39, Char.ofNat 34]

/--
The anchored regex of main line 141: it matches exactly the strings of length
at least two whose first and last characters are quotes and whose middle
contains no newline (the dot of the pattern does not match newlines), and
captures the middle.  A match just before a trailing newline is not modelled.
-/
def stripQuotesMatch (s : String) : Option String :=
  match s.data with
  | [] => Option.none
  | x :: xs =>
    match xs.reverse with
    | [] => Option.none
    | y :: midRev =>
      if quoteChars.contains x ∧ quoteChars.contains y
          ∧ ¬ midRev.contains (Char.ofNat 10) then
        some ⟨midRev.reverse⟩
      else Option.none

/-- The teststring of main lines 141-145: the captured middle when the
registered value's string form looks like a quoted literal, the raw
registered value otherwise. -/
def unwrapRegistered (v : PyVal) : PyVal :=
  match stripQuotesMatch (pyStrOf v) with
  | some inner => .str inner
  | Option.none => v

/--
The field-comparison loop of main (lines 137-154) between the freshly built
payload and one registered endpoint document: the DATA field is skipped;
every other payload field is read from the registered document (a missing
field raises KeyError, modelled as none for the whole computation); a field
whose payload value differs from the unwrapped registered value contributes a
diff entry holding the published and the raw registered value, in payload
order.
-/
def buildDiff (payload : List (String × PyVal)) (reg : List (String × PyVal)) :
    Option (List (String × PyVal × PyVal)) :=
  match payload with
  | [] => some []
  | (f, v) :: rest =>
    if f = "DATA" then buildDiff rest reg
    else
      match assocLookup reg f with
      | some rv =>
        match buildDiff rest reg with
        | some ds => some (if v ≠ unwrapRegistered rv then (f, v, rv) :: ds else ds)
        | Option.none => Option.none
      | Option.none => Option.none

/-- The declarative reading of the comparison loop: the non-DATA payload
fields whose value differs from the unwrapped registered value. -/
def differingFields (payload : List (String × PyVal)) (reg : List (String × PyVal)) :
    List (String × PyVal × PyVal) :=
  payload.filterMap (fun p =>
    if p.1 = "DATA" then Option.none
    else
      match assocLookup reg p.1 with
      | some rv => if p.2 ≠ unwrapRegistered rv then some (p.1, p.2, rv) else Option.none
      | Option.none => Option.none)

/-- The creation payload main builds for one published endpoint (lines
113-126), given the derived name and the parsed hostname and port.  When
RDR_Fields is present it supplies the description fallback, the organization
and the keyword list; the display-name fallback's inner or is dead because a
string starting with a space is always truthy. -/
def mainPayload (subid : String) (ep : PubEndpoint) (name hostname port : String) :
    List (String × PyVal) :=
  let rdrdesc := match ep.RDR_Fields with
    | some r => r.RDR_Description
    | Option.none => ""
  let puborg := match ep.RDR_Fields with
    | some r => r.Organization_Name
    | Option.none => ""
  let puborgabbr := match ep.RDR_Fields with
    | some r => r.Organization_Abbreviation
    | Option.none => ""
  let pubkeywords := match ep.RDR_Fields with
    | some r => "XSEDE, " ++ r.Organization_Abbreviation ++ ", " ++ name
    | Option.none => ""
  create_endpoint_data name (pyOr ep.Description rdrdesc) hostname port puborg
    (pyOr pubkeywords
      ("XSEDE" ++ (if puborgabbr = "" then "" else " ," ++ puborgabbr) ++ " ," ++ name))
    (pyOr ep.DisplayName ("XSEDE" ++ (" " ++ puborgabbr) ++ " " ++ name))
    subid

/-- What main does with one published endpoint once its payload is built. -/
inductive EPAction where
  | create : List (String × PyVal) → EPAction
  | compare : List (String × PyVal × PyVal) → EPAction
deriving DecidableEq, Repr

/--
The per-endpoint body of main's reconciliation loop (get_endpoints.py lines
107-154): derive the name (ValueError on short ResourceIDs), parse hostname
and port out of the URL (ValueError unless exactly one colon remains), build
the creation payload, and then either flag the endpoint for creation - its
composite key, the xsede hash, the derived name and the slash-stripped URL,
being absent from the registered map - or compare the payload field by field
against the registered document and record the mismatches.
-/
def mainProcessEndpoint (existing : List (String × List (String × PyVal)))
    (subid : String) (ep : PubEndpoint) : Option EPAction :=
  match generate_endpoint_name ep with
  | Option.none => Option.none
  | some name =>
    match parseHostPort ep.URL with
    | Option.none => Option.none
    | some (hostname, port) =>
      let payload := mainPayload subid ep name hostname port
      match assocLookup existing ("xsede#" ++ name ++ pyRstrip ep.URL '/') with
      | Option.none => some (.create payload)
      | some reg =>
        match buildDiff payload reg with
        | some ds => some (.compare ds)
        | Option.none => Option.none

lemma pySplit2_length_le (rid : String) : (pySplit2 rid).length ≤ 3 := by
  unfold pySplit2
  dsimp only
  split_ifs with h
  · exact h
  · have hmin := Nat.min_le_left 2 (pySplitAll rid '.').length
    simp only [List.length_append, List.length_take, List.length_cons, List.length_nil]
    omega

/-- C9 (amended): generate_endpoint_name splits the ResourceID on dots into at
most three parts, and - provided the ResourceID contains at least two dots, so
that the three-name unpacking succeeds - returns the first two parts joined
with a dash when the first part is hpss, the first two parts joined with a
dash when the first part is wrangler and the second is iu, and otherwise the
first part alone. -/
theorem generate_endpoint_name_spec (ep : PubEndpoint) (f s r : String)
    (h : pySplit2 ep.ResourceID = [f, s, r]) :
    (∀ rid : String, (pySplit2 rid).length ≤ 3)
    ∧ (f = "hpss" → generate_endpoint_name ep = some (f ++ "-" ++ s))
    ∧ (f = "wrangler" → s = "iu" → generate_endpoint_name ep = some (f ++ "-" ++ s))
    ∧ (¬ f = "hpss" → ¬ (f = "wrangler" ∧ s = "iu") →
        generate_endpoint_name ep = some f) := by
  refine ⟨pySplit2_length_le, ?_, ?_, ?_⟩
  · intro hf
    simp [generate_endpoint_name, h, hf]
  · intro hf hs
    simp [generate_endpoint_name, h, hf, hs]
  · intro hf hws
    simp [generate_endpoint_name, h, hf, hws]

def epHpss : PubEndpoint :=
  { URL := "gsiftp://h.example:2811/"
    ResourceID := "hpss.sdsc.xsede.org"
    Description := "d"
    DisplayName := "D"
    ID := "i1"
    RDR_Fields := Option.none }

theorem generate_endpoint_name_spec_witness :
    generate_endpoint_name epHpss = some "hpss-sdsc" := by
  have h := generate_endpoint_name_spec epHpss "hpss" "sdsc" "xsede.org" (by decide)
  exact h.2.1 rfl

def epShort : PubEndpoint :=
  { URL := "gsiftp://h.example:2811/"
    ResourceID := "abc"
    Description := "d"
    DisplayName := "D"
    ID := "i2"
    RDR_Fields := Option.none }

/-- C9 (counterexample): on a ResourceID without dots the claim expects the
first part alone, here abc; the code's three-name unpacking of split raises
ValueError instead (the model returns none), so no name is returned at all. -/
theorem generate_endpoint_name_short_id :
    generate_endpoint_name epShort = Option.none
    ∧ ¬ (generate_endpoint_name epShort = some "abc") := by
  refine ⟨?_, ?_⟩ <;> decide

lemma buildDiff_eq_differingFields (payload reg : List (String × PyVal))
    (hall : ∀ f v, (f, v) ∈ payload → ¬ f = "DATA" → (assocLookup reg f).isSome) :
    buildDiff payload reg = some (differingFields payload reg) := by
  induction payload with
  | nil => simp [buildDiff, differingFields]
  | cons p rest ih =>
    obtain ⟨f, v⟩ := p
    have hrest : ∀ g w, (g, w) ∈ rest → ¬ g = "DATA" → (assocLookup reg g).isSome :=
      fun g w hm hd => hall g w (List.mem_cons_of_mem _ hm) hd
    by_cases hf : f = "DATA"
    · simp [buildDiff, differingFields, hf, ih hrest, List.filterMap_cons]
    · have hsome := hall f v (List.mem_cons_self _ _) hf
      cases hr : assocLookup reg f with
      | none => simp [hr] at hsome
      | some rv =>
        by_cases hd : v = unwrapRegistered rv <;>
          simp [buildDiff, differingFields, hf, hr, hd, ih hrest, List.filterMap_cons]

/-- C8: a published endpoint whose composite key is absent from the registered
map is flagged for creation carrying the full creation payload (its DATA
server entry included), never dropped; and a published endpoint present in
both maps whose payload differs from the registered document - after
unwrapping quoted-literal registered values - in exactly one field yields a
compare action whose diff report holds exactly that one field entry with both
its published and its registered value. -/
theorem endpoint_diff_completeness (existing : List (String × List (String × PyVal)))
    (subid : String) (ep : PubEndpoint) (name hostname port : String)
    (hn : generate_endpoint_name ep = some name)
    (hp : parseHostPort ep.URL = some (hostname, port)) :
    (assocLookup existing ("xsede#" ++ name ++ pyRstrip ep.URL '/') = Option.none →
        mainProcessEndpoint existing subid ep
          = some (.create (mainPayload subid ep name hostname port))
        ∧ assocLookup (mainPayload subid ep name hostname port) "DATA"
          = some (.servers [{ hostname := hostname, scheme := "gsiftp", port := port,
                              subject := Option.none }]))
    ∧ (∀ reg f pv rv,
        assocLookup existing ("xsede#" ++ name ++ pyRstrip ep.URL '/') = some reg →
        (∀ g w, (g, w) ∈ mainPayload subid ep name hostname port → ¬ g = "DATA" →
            (assocLookup reg g).isSome) →
        differingFields (mainPayload subid ep name hostname port) reg = [(f, pv, rv)] →
        mainProcessEndpoint existing subid ep = some (.compare [(f, pv, rv)])) := by
  constructor
  · intro hmiss
    constructor
    · simp [mainProcessEndpoint, hn, hp, hmiss]
    · simp [mainPayload, create_endpoint_data, assocLookup]
  · intro reg f pv rv hfound hall hone
    have hb := buildDiff_eq_differingFields (mainPayload subid ep name hostname port) reg hall
    simp [mainProcessEndpoint, hn, hp, hfound, hb, hone]

theorem endpoint_diff_completeness_witness :
    mainProcessEndpoint [] "sub-1" epHpss
      = some (.create (mainPayload "sub-1" epHpss "hpss-sdsc" "h.example" "2811")) := by
  have h := endpoint_diff_completeness [] "sub-1" epHpss "hpss-sdsc" "h.example" "2811"
    (by decide) (by decide)
  exact (h.1 (by decide)).1

end ManageGlobus
